import Mathlib

/-!
Shallow embedding of the Redux action-creator layer of the jitsi-meet-react
repository: the participant action creators
(src/features/base/participants/actions.js) and the conference action
creators (the unnamed conference actions module).

Modelling conventions:
* JS objects with a fixed set of optional fields become structures whose
  fields are `Option`-typed; an absent field is `none`.
* A thunk-style action creator (a function of `(dispatch, getState)`) is
  modelled as a function from the Redux state to the list of observable
  events (SDK calls and dispatched plain actions) its synchronous execution
  produces, in order; a thrown JS error is modelled by `Except.error`, in
  which case no event was observed.
* `dispatch` applied to another thunk (redux-thunk middleware) executes
  that thunk synchronously; its events are inlined at that point.
* JS truthiness of a `Bool`-or-absent field is `optTruthy`; JS strict
  equality `===` between a possibly-`undefined` id and a possibly-`null`
  id is `jsStrictEqId` (note `undefined === null` is `false` in JS).
-/

namespace Jitsi

/-- Participant record of the store roster / participant action payloads:
{ id, name, email, role, local, pinned }, every field optional.  The JS
field `local` is called `isLocal` here because `local` is a Lean keyword. -/
structure Participant where
  id : Option String := none
  name : Option String := none
  email : Option String := none
  role : Option String := none
  isLocal : Option Bool := none
  pinned : Option Bool := none
deriving DecidableEq, Repr

/-- JS truthiness of an optional boolean field: truthy exactly when the
field is present and `true` (`undefined` and `false` are falsy). -/
def optTruthy : Option Bool → Bool
  | some b => b
  | none => false

/-- JS strict equality `p.id === id` where `p.id` is a string or
`undefined` (absent) and `id` is a string or `null`: true exactly when
both are strings and equal; `undefined === null` is `false`. -/
def jsStrictEqId : Option String → Option String → Bool
  | some a, some b => a == b
  | _, _ => false

/-- Opaque handle to the SDK's conference object. -/
structure JitsiConference where
  ref : Nat
deriving DecidableEq, Repr

/-- Options object passed to `connection.initJitsiConference`. -/
structure ConferenceOptions where
  openSctp : Bool
deriving DecidableEq, Repr

/-- Opaque SDK connection object held in the `features/base/connection`
slice; `initJitsiConference(room, options)` returns a conference handle. -/
structure Connection where
  ref : Nat := 0
  initJitsiConference : String → ConferenceOptions → JitsiConference

/-- Opaque SDK media-track handle; `isLocal()` is its local/remote flag. -/
structure JitsiTrack where
  ref : Nat
  isLocal : Bool
deriving DecidableEq, Repr

/-- Entry of the `features/base/tracks` slice: { local, jitsiTrack }.  The
JS field `local` is called `isLocal` here (`local` is a Lean keyword). -/
structure TrackState where
  isLocal : Bool
  jitsiTrack : JitsiTrack
deriving DecidableEq, Repr

/-- The `features/base/conference` slice: { jitsiConference, room }, the
conference handle possibly absent (before creation / after leaving). -/
structure ConferenceState where
  jitsiConference : Option JitsiConference := none
  room : Option String := none

/-- The Redux store state, restricted to the slices this layer reads. -/
structure ReduxState where
  connection : Option Connection := none
  conference : ConferenceState := {}
  participants : List Participant := []
  tracks : List TrackState := []

/-- Names of the SDK conference events (`JitsiMeetJS.events.conference`). -/
inductive JitsiConferenceEvent where
  | CONFERENCE_JOINED
  | CONFERENCE_LEFT
  | DOMINANT_SPEAKER_CHANGED
  | TRACK_ADDED
  | TRACK_MUTE_CHANGED
  | TRACK_REMOVED
  | USER_JOINED
  | USER_LEFT
  | USER_ROLE_CHANGED
deriving DecidableEq, Repr

/-- Plain Redux actions produced by the two modules, one constructor per
action type, each carrying exactly the payload the source builds. -/
inductive Action where
  | PARTICIPANT_UPDATED (participant : Participant)
  | DOMINANT_SPEAKER_CHANGED (participant : Participant)
  | PARTICIPANT_ID_CHANGED (newId : String) (previousId : Option String)
  | PARTICIPANT_JOINED (participant : Participant)
  | PARTICIPANT_LEFT (participant : Participant)
  | PARTICIPANT_PINNED (participant : Participant)
  | CONFERENCE_JOINED (jitsiConference : JitsiConference)
  | CONFERENCE_LEFT (jitsiConference : JitsiConference)
  | ROOM_SET (room : String)
  | TRACK_ADDED (track : JitsiTrack)
  | TRACK_MUTE_CHANGED (track : Option JitsiTrack)
  | TRACK_REMOVED (track : JitsiTrack)
deriving DecidableEq, Repr

/-- Observable events of a thunk's synchronous execution: SDK calls and
dispatches of plain actions, in program order. -/
inductive Event where
  | sdkInitJitsiConference (connRef : Nat) (room : String)
      (options : ConferenceOptions)
  | sdkOn (conference : JitsiConference) (event : JitsiConferenceEvent)
  | sdkAddCommandListener (conference : JitsiConference) (command : String)
  | sdkJoin (conference : JitsiConference)
  | sdkPinParticipant (conference : JitsiConference) (id : Option String)
  | sdkAddLocalTracksToConference (conference : JitsiConference)
      (tracks : List JitsiTrack)
  | dispatch (action : Action)
deriving DecidableEq, Repr

/-! ## Participant action creators (src/features/base/participants/actions.js) -/

/-- `changeParticipantEmail(id, email)`: plain PARTICIPANT_UPDATED action
with payload participant { id, email }. -/
def changeParticipantEmail (id : String) (email : String) : Action :=
  .PARTICIPANT_UPDATED { id := some id, email := some email }

/-- `dominantSpeakerChanged(id)`: plain DOMINANT_SPEAKER_CHANGED action
with payload participant { id }. -/
def dominantSpeakerChanged (id : String) : Action :=
  .DOMINANT_SPEAKER_CHANGED { id := some id }

/-- `_getLocalParticipant(getState)`: first roster participant whose
`local` field is truthy, if any. -/
def _getLocalParticipant (state : ReduxState) : Option Participant :=
  state.participants.find? fun p => optTruthy p.isLocal

/-- `localParticipantIdChanged(id)`: thunk; when a local participant
exists, dispatches PARTICIPANT_ID_CHANGED with { newId: id, previousId:
localParticipant.id }; otherwise does nothing. -/
def localParticipantIdChanged (id : String) (state : ReduxState) :
    List Event :=
  match _getLocalParticipant state with
  | some localParticipant =>
      [.dispatch (.PARTICIPANT_ID_CHANGED id localParticipant.id)]
  | none => []

/-- `participantJoined(participant)`: plain PARTICIPANT_JOINED action
carrying the given participant. -/
def participantJoined (participant : Participant) : Action :=
  .PARTICIPANT_JOINED participant

/-- `localParticipantJoined(participant = {})`: PARTICIPANT_JOINED via
`participantJoined({ ...participant, local: true })`. -/
def localParticipantJoined (participant : Participant := {}) : Action :=
  participantJoined { participant with isLocal := some true }

/-- `participantLeft(id)`: plain PARTICIPANT_LEFT action with payload
participant { id } (the id may be `undefined` when forwarded from a
roster record without one). -/
def participantLeft (id : Option String) : Action :=
  .PARTICIPANT_LEFT { id := id }

/-- `localParticipantLeft()`: thunk; when a local participant exists,
dispatches `participantLeft(participant.id)`; otherwise does nothing. -/
def localParticipantLeft (state : ReduxState) : List Event :=
  match _getLocalParticipant state with
  | some participant => [.dispatch (participantLeft participant.id)]
  | none => []

/-- `participantRoleChanged(id, role)`: plain PARTICIPANT_UPDATED action
with payload participant { id, role }. -/
def participantRoleChanged (id : String) (role : String) : Action :=
  .PARTICIPANT_UPDATED { id := some id, role := some role }

/-- The guard of the SDK call inside `pinParticipant`:
`(participant && !participant.local) ||
 (!participant && (!localParticipant || !localParticipant.pinned))`. -/
def pinShouldSignal (participant localParticipant : Option Participant) :
    Bool :=
  match participant with
  | some p => !(optTruthy p.isLocal)
  | none =>
      match localParticipant with
      | none => true
      | some lp => !(optTruthy lp.pinned)

/-- `pinParticipant(id)`: thunk; looks up the participant by id and the
local participant, calls `conference.pinParticipant(id)` when the guard
holds (throwing a TypeError if the state holds no conference handle),
then dispatches PARTICIPANT_PINNED with payload participant { id }. -/
def pinParticipant (id : Option String) (state : ReduxState) :
    Except String (List Event) :=
  if pinShouldSignal (state.participants.find? fun p => jsStrictEqId p.id id)
      (_getLocalParticipant state) then
    match state.conference.jitsiConference with
    | some c =>
        .ok [.sdkPinParticipant c id,
             .dispatch (.PARTICIPANT_PINNED { id := id })]
    | none =>
        .error "TypeError: cannot read pinParticipant of undefined"
  else
    .ok [.dispatch (.PARTICIPANT_PINNED { id := id })]

/-! ## Conference action creators (the unnamed conference actions module) -/

/-- Modelled from the spec: the EMAIL_COMMAND constant lives in a
constants module that is not among the provided sources; its concrete
value is irrelevant to every claim, only its identity as the command name
of the email-command propagation matters. -/
def EMAIL_COMMAND : String := "email"

/-- Modelled from the spec: the tracks action creators (`trackAdded`,
`trackMuteChanged`, `trackRemoved`) live in the tracks feature, which is
not among the provided sources; per the spec, track add/remove/mute
events flow into the tracks slice as actions, so each creator is
modelled as injecting its track into the corresponding action. -/
def trackAdded (track : JitsiTrack) : Action :=
  .TRACK_ADDED track

/-- Modelled from the spec: see `trackAdded`. -/
def trackMuteChanged (track : Option JitsiTrack) : Action :=
  .TRACK_MUTE_CHANGED track

/-- Modelled from the spec: see `trackAdded`. -/
def trackRemoved (track : JitsiTrack) : Action :=
  .TRACK_REMOVED track

/-- The TRACK_ADDED listener registered by `_setupConferenceListeners`:
`track => { if (!track || track.isLocal()) return; dispatch(trackAdded(track)); }`,
as the list of actions it dispatches for a received track. -/
def trackAddedListener (track : Option JitsiTrack) : List Action :=
  match track with
  | none => []
  | some t => if t.isLocal then [] else [trackAdded t]

/-- The TRACK_MUTE_CHANGED listener registered by
`_setupConferenceListeners`: `track => dispatch(trackMuteChanged(track))`,
with no guard. -/
def trackMuteChangedListener (track : Option JitsiTrack) : List Action :=
  [trackMuteChanged track]

/-- The TRACK_REMOVED listener registered by `_setupConferenceListeners`:
same guard as the TRACK_ADDED listener, dispatching `trackRemoved`. -/
def trackRemovedListener (track : Option JitsiTrack) : List Action :=
  match track with
  | none => []
  | some t => if t.isLocal then [] else [trackRemoved t]

/-- The USER_JOINED listener registered by `_setupConferenceListeners`:
dispatches `participantJoined({ id, name, role })`. -/
def userJoinedListener (id : String) (name : String) (role : String) :
    List Action :=
  [participantJoined { id := some id, name := some name, role := some role }]

/-- The USER_LEFT listener registered by `_setupConferenceListeners`:
dispatches `participantLeft(id)`. -/
def userLeftListener (id : String) : List Action :=
  [participantLeft (some id)]

/-- The USER_ROLE_CHANGED listener registered by
`_setupConferenceListeners`: dispatches `participantRoleChanged(id, role)`. -/
def userRoleChangedListener (id : String) (role : String) : List Action :=
  [participantRoleChanged id role]

/-- The EMAIL_COMMAND command listener registered by
`_setupConferenceListeners`: dispatches
`changeParticipantEmail(id, data.value)`. -/
def emailCommandListener (dataValue : String) (id : String) : List Action :=
  [changeParticipantEmail id dataValue]

/-- `_setupConferenceListeners(conference)`: thunk registering the nine
`conference.on` handlers and the EMAIL_COMMAND command listener, in
program order; the registered callbacks themselves are modelled by the
named `...Listener` definitions above. -/
def _setupConferenceListeners (conference : JitsiConference) : List Event :=
  [.sdkOn conference .CONFERENCE_JOINED,
   .sdkOn conference .CONFERENCE_LEFT,
   .sdkOn conference .DOMINANT_SPEAKER_CHANGED,
   .sdkOn conference .TRACK_ADDED,
   .sdkOn conference .TRACK_MUTE_CHANGED,
   .sdkOn conference .TRACK_REMOVED,
   .sdkOn conference .USER_JOINED,
   .sdkOn conference .USER_LEFT,
   .sdkOn conference .USER_ROLE_CHANGED,
   .sdkAddCommandListener conference EMAIL_COMMAND]

/-- `createConference(room)`: thunk; throws when the state holds no
connection, otherwise creates the conference handle via
`connection.initJitsiConference(room, { openSctp: true })`, registers the
event listeners (the dispatched `_setupConferenceListeners` thunk runs
synchronously), and then calls `conference.join()`. -/
def createConference (room : String) (state : ReduxState) :
    Except String (List Event) :=
  match state.connection with
  | none => .error "Cannot create conference without connection"
  | some connection =>
      let conference := connection.initJitsiConference room { openSctp := true }
      .ok ([.sdkInitJitsiConference connection.ref room { openSctp := true }]
        ++ _setupConferenceListeners conference
        ++ [.sdkJoin conference])

/-- The list of local track handles read by `conferenceJoined`:
`getState()['features/base/tracks'].filter(t => t.local).map(t => t.jitsiTrack)`. -/
def localTracksOf (state : ReduxState) : List JitsiTrack :=
  (state.tracks.filter fun t => t.isLocal).map fun t => t.jitsiTrack

/-- `conferenceJoined(conference)`: thunk; when the list of local tracks
is non-empty calls `_addLocalTracksToConference(conference, localTracks)`,
then dispatches CONFERENCE_JOINED carrying the conference reference. -/
def conferenceJoined (conference : JitsiConference) (state : ReduxState) :
    List Event :=
  let localTracks := localTracksOf state
  (if localTracks.length ≠ 0 then
    [.sdkAddLocalTracksToConference conference localTracks]
  else []) ++ [.dispatch (.CONFERENCE_JOINED conference)]

/-- `conferenceLeft(conference)`: plain CONFERENCE_LEFT action carrying
the conference reference. -/
def conferenceLeft (conference : JitsiConference) : Action :=
  .CONFERENCE_LEFT conference

/-- `roomSet(room)`: plain ROOM_SET action carrying the room name. -/
def roomSet (room : String) : Action :=
  .ROOM_SET room

/-! ## Spec-modelled participants reducer

The participants reducer module is referenced (`import './reducer'`) but
not among the provided sources, so it is modelled from the spec. -/

/-- Modelled from the spec: merging a partial participant payload into a
roster record on PARTICIPANT_UPDATED ("updated on role/email/mute
changes"), a field present in the payload overriding the stored one, as a
JS object spread does. -/
def mergeParticipant (p upd : Participant) : Participant :=
  { id := upd.id <|> p.id,
    name := upd.name <|> p.name,
    email := upd.email <|> p.email,
    role := upd.role <|> p.role,
    isLocal := upd.isLocal <|> p.isLocal,
    pinned := upd.pinned <|> p.pinned }

/-- Modelled from the spec: the participants reducer, which is referenced
but not among the provided sources.  Per the spec's data model
("Uniqueness by id within the roster collection. ... Created on join
event, updated on role/email/mute changes, removed on leave event", plus
the id-changed action handling local id renumbering): PARTICIPANT_JOINED
inserts the participant, enforcing uniqueness by id; PARTICIPANT_UPDATED
merges the payload into the record with the matching id;
PARTICIPANT_LEFT removes the record with the matching id;
PARTICIPANT_ID_CHANGED renames previousId to newId; other actions leave
the roster unchanged. -/
def participantsReducer (roster : List Participant) (action : Action) :
    List Participant :=
  match action with
  | .PARTICIPANT_JOINED p =>
      (roster.filter fun q => !(q.id == p.id)) ++ [p]
  | .PARTICIPANT_UPDATED upd =>
      roster.map fun q => if q.id == upd.id then mergeParticipant q upd else q
  | .PARTICIPANT_LEFT payload =>
      roster.filter fun q => !(q.id == payload.id)
  | .PARTICIPANT_ID_CHANGED newId previousId =>
      roster.map fun q =>
        if q.id == previousId then { q with id := some newId } else q
  | _ => roster

/-- Number of roster participants whose `local` field is truthy. -/
def countLocal (roster : List Participant) : Nat :=
  (roster.filter fun p => optTruthy p.isLocal).length

/-- Whether a thunk's execution completed without throwing. -/
def exceptIsOk : Except String (List Event) → Bool
  | .ok _ => true
  | .error _ => false

/-! ## Helper lemmas about `countLocal` -/

theorem countLocal_eq_countP (l : List Participant) :
    countLocal l = l.countP fun p => optTruthy p.isLocal :=
  (List.countP_eq_length_filter _ _).symm

theorem countLocal_append (l₁ l₂ : List Participant) :
    countLocal (l₁ ++ l₂) = countLocal l₁ + countLocal l₂ := by
  simp [countLocal_eq_countP]

theorem countLocal_filter_le (l : List Participant) (f : Participant → Bool) :
    countLocal (l.filter f) ≤ countLocal l := by
  simp only [countLocal_eq_countP, List.countP_filter]
  exact List.countP_mono_left fun x _ hx => by
    simp only [Bool.and_eq_true] at hx
    exact hx.1

theorem countLocal_map_of_preserve (l : List Participant)
    (g : Participant → Participant)
    (h : ∀ x ∈ l, optTruthy (g x).isLocal = optTruthy x.isLocal) :
    countLocal (l.map g) = countLocal l := by
  simp only [countLocal_eq_countP, List.countP_map]
  exact List.countP_congr fun x hx => by
    simp [Function.comp, h x hx]

theorem countLocal_filter_eq_zero (l : List Participant) (i : Option String)
    (h : ∀ q ∈ l, optTruthy q.isLocal = true → q.id = i) :
    countLocal (l.filter fun q => !(q.id == i)) = 0 := by
  simp only [countLocal_eq_countP, List.countP_filter]
  apply List.countP_eq_zero.mpr
  intro q hq hcontra
  simp only [Bool.and_eq_true, Bool.not_eq_true', beq_eq_false_iff_ne] at hcontra
  exact hcontra.2 (h q hq hcontra.1)

theorem countLocal_singleton_le_one (p : Participant) : countLocal [p] ≤ 1 := by
  cases h : optTruthy p.isLocal <;> simp [countLocal, List.filter, h]

theorem countLocal_singleton_not_local (p : Participant)
    (h : optTruthy p.isLocal = false) : countLocal [p] = 0 := by
  simp [countLocal, List.filter, h]

/-- Merging an update payload whose `local` field is absent never changes
whether the stored record's `local` field is truthy. -/
theorem mergeParticipant_preserves_isLocal (p upd : Participant)
    (h : upd.isLocal = none) :
    (mergeParticipant p upd).isLocal = p.isLocal := by
  simp [mergeParticipant, h, Option.orElse]

/-! ## Concrete states used by the witnesses -/

/-- A local participant with id "me". -/
def pLocalMe : Participant := { id := some "me", isLocal := some true }

/-- A store state whose roster holds exactly the local participant. -/
def stateLocalMe : ReduxState := { participants := [pLocalMe] }

/-- The initial store state: no connection, no conference handle, empty
roster, no tracks. -/
def stateEmpty : ReduxState := {}

/-- A store state holding a conference handle and nothing else. -/
def stateWithConf : ReduxState :=
  { conference := { jitsiConference := some ⟨7⟩ } }

/-! ## Claims -/

/-- C1: invoking `pinParticipant(id)` with `id` equal to the id of the
participant flagged local never signals the SDK to establish that
participant as the pin target: under the roster's uniqueness-by-id
invariant, the conditional inside `pinParticipant` rejects the SDK call
and the thunk only dispatches the PARTICIPANT_PINNED action. -/
theorem pinParticipant_local_id_never_signalled
    (state : ReduxState) (lp : Participant) (i : String)
    (hmem : lp ∈ state.participants)
    (hlocal : optTruthy lp.isLocal = true)
    (hid : lp.id = some i)
    (huniq : ∀ p ∈ state.participants, p.id = some i →
      optTruthy p.isLocal = true) :
    pinParticipant (some i) state =
      .ok [.dispatch (.PARTICIPANT_PINNED { id := some i })] := by
  have hsome : (state.participants.find? fun p =>
      jsStrictEqId p.id (some i)).isSome := by
    apply List.find?_isSome.mpr
    exact ⟨lp, hmem, by rw [hid]; simp [jsStrictEqId]⟩
  cases hf : state.participants.find? fun p => jsStrictEqId p.id (some i) with
  | none => rw [hf] at hsome; simp at hsome
  | some p =>
      have hpred0 := List.find?_some hf
      have hpred : jsStrictEqId p.id (some i) = true := hpred0
      have hpmem : p ∈ state.participants := List.mem_of_find?_eq_some hf
      have hpid : p.id = some i := by
        cases hq : p.id with
        | none => rw [hq] at hpred; simp [jsStrictEqId] at hpred
        | some s =>
            rw [hq] at hpred
            simp only [jsStrictEqId, beq_iff_eq] at hpred
            rw [hpred]
      have hploc : optTruthy p.isLocal = true := huniq p hpmem hpid
      unfold pinParticipant
      rw [hf]
      simp [pinShouldSignal, hploc]

/-- Witness for C1 at a concrete roster holding one local participant
with id "me". -/
theorem pinParticipant_local_id_never_signalled_witness :
    pLocalMe ∈ stateLocalMe.participants ∧
    optTruthy pLocalMe.isLocal = true ∧
    pLocalMe.id = some "me" ∧
    (∀ p ∈ stateLocalMe.participants, p.id = some "me" →
      optTruthy p.isLocal = true) ∧
    pinParticipant (some "me") stateLocalMe =
      .ok [.dispatch (.PARTICIPANT_PINNED { id := some "me" })] :=
  ⟨by decide, by decide, by decide, by decide,
   pinParticipant_local_id_never_signalled stateLocalMe pLocalMe "me"
     (by decide) (by decide) (by decide) (by decide)⟩

/-- C2 counterexample: on the initial store state (no conference handle,
empty roster) the guard of the SDK call holds, so
`pinParticipant("x")` throws a TypeError reading `pinParticipant` of the
absent conference handle and dispatches nothing — not "exactly one plain
action" as the claim states for every store state. -/
theorem pinParticipant_dispatch_counterexample :
    exceptIsOk (pinParticipant (some "x") stateEmpty) = false ∧
    pinParticipant (some "x") stateEmpty =
      .error "TypeError: cannot read pinParticipant of undefined" :=
  ⟨rfl, rfl⟩

/-- C2 (amended): for every store state that holds a conference handle
and every id, the thunk returned by `pinParticipant(id)` dispatches
exactly one plain action PARTICIPANT_PINNED with payload { id }, and the
SDK call `conference.pinParticipant(id)` is made exactly when the guard
holds (the targeted participant exists and is not local, or no
participant is found and no local participant is currently pinned), in
which case it happens before the dispatch; without a conference handle
and with the guard holding, the thunk throws without dispatching. -/
theorem pinParticipant_signal_before_single_dispatch
    (id : Option String) (state : ReduxState) (c : JitsiConference)
    (hc : state.conference.jitsiConference = some c) :
    (pinShouldSignal (state.participants.find? fun p => jsStrictEqId p.id id)
        (_getLocalParticipant state) = true →
      pinParticipant id state =
        .ok [.sdkPinParticipant c id,
             .dispatch (.PARTICIPANT_PINNED { id := id })]) ∧
    (pinShouldSignal (state.participants.find? fun p => jsStrictEqId p.id id)
        (_getLocalParticipant state) = false →
      pinParticipant id state =
        .ok [.dispatch (.PARTICIPANT_PINNED { id := id })]) := by
  constructor <;> intro hcond <;> simp [pinParticipant, hcond, hc]

/-- Witness for C2 at a concrete state holding a conference handle and an
empty roster (guard holds: no participant found, no local pinned). -/
theorem pinParticipant_signal_before_single_dispatch_witness :
    stateWithConf.conference.jitsiConference = some ⟨7⟩ ∧
    pinParticipant (some "x") stateWithConf =
      .ok [.sdkPinParticipant ⟨7⟩ (some "x"),
           .dispatch (.PARTICIPANT_PINNED { id := some "x" })] :=
  ⟨rfl,
   (pinParticipant_signal_before_single_dispatch (some "x") stateWithConf
     ⟨7⟩ rfl).1 (by decide)⟩

/-- C3: `createConference(room)` throws exactly when the state holds no
connection object, in which case no SDK call is made and no action is
dispatched (the error result carries no observable event); otherwise it
creates the handle via `connection.initJitsiConference(room,
{ openSctp: true })`, registers the event listeners, and then calls
`conference.join()`, in that order. -/
theorem createConference_connection_spec (room : String)
    (state : ReduxState) :
    (state.connection = none →
      createConference room state =
        .error "Cannot create conference without connection") ∧
    (∀ conn, state.connection = some conn →
      createConference room state =
        .ok ([.sdkInitJitsiConference conn.ref room { openSctp := true }]
          ++ _setupConferenceListeners
              (conn.initJitsiConference room { openSctp := true })
          ++ [.sdkJoin (conn.initJitsiConference room
                { openSctp := true })])) ∧
    ((∃ msg, createConference room state = .error msg) ↔
      state.connection = none) := by
  refine ⟨fun h => by simp [createConference, h], fun conn h => by
    simp [createConference, h], ?_⟩
  cases h : state.connection with
  | none => simp [createConference, h]
  | some conn => simp [createConference, h]

/-- A concrete SDK connection whose `initJitsiConference` returns the
conference handle 9. -/
def connA : Connection := { ref := 3, initJitsiConference := fun _ _ => ⟨9⟩ }

/-- A store state holding the concrete connection `connA`. -/
def stateWithConn : ReduxState := { connection := some connA }

/-- Witness for C3 at a concrete state with a connection (full trace:
init, the nine listener registrations plus the command listener, join)
and at the initial state without one (error). -/
theorem createConference_connection_spec_witness :
    stateWithConn.connection = some connA ∧
    createConference "room1" stateWithConn =
      .ok ([.sdkInitJitsiConference 3 "room1" { openSctp := true }]
        ++ _setupConferenceListeners ⟨9⟩
        ++ [.sdkJoin ⟨9⟩]) ∧
    stateEmpty.connection = none ∧
    createConference "room1" stateEmpty =
      .error "Cannot create conference without connection" :=
  ⟨rfl,
   (createConference_connection_spec "room1" stateWithConn).2.1 connA rfl,
   rfl,
   (createConference_connection_spec "room1" stateEmpty).1 rfl⟩

/-- A roster holding exactly one local participant, with id "a". -/
def rosterLocalA : List Participant := [{ id := some "a", isLocal := some true }]

/-- C4 counterexample: the at-most-one-local invariant is not preserved
by every action the participant action creators produce: applying the
spec-modelled reducer to the action `localParticipantJoined({ id: "b" })`
on a roster whose local participant has id "a" yields a roster with two
participants flagged local. -/
theorem atMostOneLocal_not_preserved_counterexample :
    countLocal rosterLocalA ≤ 1 ∧
    ¬ countLocal (participantsReducer rosterLocalA
        (localParticipantJoined { id := some "b" })) ≤ 1 :=
  ⟨by decide, by decide⟩

/-- C4 (amended): under the spec-modelled reducer, at most one
participant flagged local is preserved by every action produced by
`changeParticipantEmail`, `participantRoleChanged`, `participantLeft` and
`localParticipantIdChanged`, and by the PARTICIPANT_JOINED actions of
`participantJoined` / `localParticipantJoined` provided the joined record
is not flagged local or every local participant already in the roster
carries the joined record's id; a `localParticipantJoined` action whose
payload id differs from an existing local participant's id breaks the
invariant. -/
theorem atMostOneLocal_preserved_amended
    (roster : List Participant) (h : countLocal roster ≤ 1) :
    (∀ id email, countLocal (participantsReducer roster
        (changeParticipantEmail id email)) ≤ 1) ∧
    (∀ id role, countLocal (participantsReducer roster
        (participantRoleChanged id role)) ≤ 1) ∧
    (∀ id, countLocal (participantsReducer roster
        (participantLeft id)) ≤ 1) ∧
    (∀ newId (st : ReduxState), st.participants = roster →
      ∀ a, Event.dispatch a ∈ localParticipantIdChanged newId st →
        countLocal (participantsReducer roster a) ≤ 1) ∧
    (∀ p, optTruthy p.isLocal = false →
      countLocal (participantsReducer roster (participantJoined p)) ≤ 1) ∧
    (∀ p, (∀ q ∈ roster, optTruthy q.isLocal = true → q.id = p.id) →
      countLocal (participantsReducer roster (participantJoined p)) ≤ 1) ∧
    (∀ p, (∀ q ∈ roster, optTruthy q.isLocal = true → q.id = p.id) →
      countLocal (participantsReducer roster
        (localParticipantJoined p)) ≤ 1) := by
  have hupd : ∀ upd : Participant, upd.isLocal = none →
      countLocal (participantsReducer roster (.PARTICIPANT_UPDATED upd)) ≤ 1 := by
    intro upd hnone
    show countLocal (roster.map _) ≤ 1
    rw [countLocal_map_of_preserve]
    · exact h
    · intro x _
      by_cases hx : x.id == upd.id
      · simp [hx, mergeParticipant_preserves_isLocal x upd hnone]
      · simp [hx]
  have hjoinLocalish : ∀ p : Participant,
      (∀ q ∈ roster, optTruthy q.isLocal = true → q.id = p.id) →
      countLocal (participantsReducer roster (participantJoined p)) ≤ 1 := by
    intro p hp
    show countLocal (roster.filter _ ++ [p]) ≤ 1
    rw [countLocal_append, countLocal_filter_eq_zero roster p.id hp]
    simpa using countLocal_singleton_le_one p
  refine ⟨fun id email => hupd _ rfl,
          fun id role => hupd _ rfl,
          ?_, ?_, ?_, hjoinLocalish, ?_⟩
  · intro id
    exact Nat.le_trans (countLocal_filter_le roster _) h
  · intro newId st hst a ha
    unfold localParticipantIdChanged at ha
    cases hl : _getLocalParticipant st with
    | none => rw [hl] at ha; simp at ha
    | some lp =>
        rw [hl] at ha
        simp only [List.mem_singleton, Event.dispatch.injEq] at ha
        subst ha
        show countLocal (roster.map _) ≤ 1
        rw [countLocal_map_of_preserve]
        · exact h
        · intro x _
          by_cases hx : x.id == lp.id
          · simp [hx]
          · simp [hx]
  · intro p hp
    show countLocal (roster.filter _ ++ [p]) ≤ 1
    rw [countLocal_append, countLocal_singleton_not_local p hp]
    exact Nat.le_trans (Nat.le_of_eq (Nat.add_zero _))
      (Nat.le_trans (countLocal_filter_le roster _) h)
  · intro p hp
    exact hjoinLocalish { p with isLocal := some true } hp

/-- Witness for C4 (amended) on the concrete roster with one local
participant: removing a participant and a guarded local re-join both
keep the local count at one. -/
theorem atMostOneLocal_preserved_amended_witness :
    countLocal rosterLocalA ≤ 1 ∧
    countLocal (participantsReducer rosterLocalA
      (participantLeft (some "a"))) ≤ 1 ∧
    (∀ q ∈ rosterLocalA, optTruthy q.isLocal = true → q.id = some "a") ∧
    countLocal (participantsReducer rosterLocalA
      (localParticipantJoined { id := some "a" })) ≤ 1 :=
  ⟨by decide,
   (atMostOneLocal_preserved_amended rosterLocalA (by decide)).2.2.1 (some "a"),
   by decide,
   (atMostOneLocal_preserved_amended rosterLocalA
     (by decide)).2.2.2.2.2.2 { id := some "a" } (by decide)⟩

/-- C5: when a participant flagged local exists, the thunk returned by
`localParticipantIdChanged(id)` dispatches exactly one action,
PARTICIPANT_ID_CHANGED with { newId: id, previousId: the current local
participant's id }, recording both the old and the new id of the
renumbering. -/
theorem localParticipantIdChanged_dispatches_renumbering
    (id : String) (state : ReduxState) (lp : Participant)
    (h : _getLocalParticipant state = some lp) :
    localParticipantIdChanged id state =
      [.dispatch (.PARTICIPANT_ID_CHANGED id lp.id)] := by
  unfold localParticipantIdChanged
  rw [h]

/-- Witness for C5 at the concrete roster holding the local participant
with id "me". -/
theorem localParticipantIdChanged_dispatches_renumbering_witness :
    _getLocalParticipant stateLocalMe = some pLocalMe ∧
    localParticipantIdChanged "new" stateLocalMe =
      [.dispatch (.PARTICIPANT_ID_CHANGED "new" (some "me"))] :=
  ⟨rfl,
   localParticipantIdChanged_dispatches_renumbering "new" stateLocalMe
     pLocalMe rfl⟩

/-- C6: the thunk returned by `conferenceJoined(conference)` dispatches
the CONFERENCE_JOINED action carrying the opaque SDK conference reference
itself, and calls `_addLocalTracksToConference(conference, localTracks)`
before that dispatch exactly when the list of local tracks of the tracks
slice is non-empty. -/
theorem conferenceJoined_tracks_then_dispatch
    (c : JitsiConference) (state : ReduxState) :
    (localTracksOf state ≠ [] →
      conferenceJoined c state =
        [.sdkAddLocalTracksToConference c (localTracksOf state),
         .dispatch (.CONFERENCE_JOINED c)]) ∧
    (localTracksOf state = [] →
      conferenceJoined c state = [.dispatch (.CONFERENCE_JOINED c)]) := by
  constructor <;> intro h <;>
    simp [conferenceJoined, List.length_eq_zero, h]

/-- A local SDK track handle. -/
def trackL : JitsiTrack := ⟨1, true⟩

/-- A store state whose tracks slice holds one local track. -/
def stateTracks : ReduxState := { tracks := [⟨true, trackL⟩] }

/-- Witness for C6 at a concrete state with one local track and at the
initial state with none. -/
theorem conferenceJoined_tracks_then_dispatch_witness :
    localTracksOf stateTracks ≠ [] ∧
    conferenceJoined ⟨2⟩ stateTracks =
      [.sdkAddLocalTracksToConference ⟨2⟩ [trackL],
       .dispatch (.CONFERENCE_JOINED ⟨2⟩)] ∧
    localTracksOf stateEmpty = [] ∧
    conferenceJoined ⟨2⟩ stateEmpty = [.dispatch (.CONFERENCE_JOINED ⟨2⟩)] :=
  ⟨by decide,
   (conferenceJoined_tracks_then_dispatch ⟨2⟩ stateTracks).1 (by decide),
   rfl,
   (conferenceJoined_tracks_then_dispatch ⟨2⟩ stateEmpty).2 rfl⟩

/-- C7: the participant roster lifecycle actions have exactly the stated
shapes: `participantJoined(p)` is PARTICIPANT_JOINED carrying p,
`changeParticipantEmail(id, email)` and `participantRoleChanged(id,
role)` are PARTICIPANT_UPDATED carrying only { id, email } resp.
{ id, role }, and `participantLeft(id)` is PARTICIPANT_LEFT carrying
only the participant's id. -/
theorem participant_roster_action_shapes :
    (∀ p, participantJoined p = Action.PARTICIPANT_JOINED p) ∧
    (∀ id email, changeParticipantEmail id email =
      Action.PARTICIPANT_UPDATED
        { id := some id, name := none, email := some email, role := none,
          isLocal := none, pinned := none }) ∧
    (∀ id role, participantRoleChanged id role =
      Action.PARTICIPANT_UPDATED
        { id := some id, name := none, email := none, role := some role,
          isLocal := none, pinned := none }) ∧
    (∀ id, participantLeft id =
      Action.PARTICIPANT_LEFT
        { id := id, name := none, email := none, role := none,
          isLocal := none, pinned := none }) :=
  ⟨fun _ => rfl, fun _ _ => rfl, fun _ _ => rfl, fun _ => rfl⟩

/-- C8: `localParticipantJoined(participant)` equals
`participantJoined({ ...participant, local: true })`: the `local` field
of the produced action's payload is always `true`, overriding any
`local` field of the input, including `local: false`. -/
theorem localParticipantJoined_is_participantJoined_local_true
    (p : Participant) :
    localParticipantJoined p =
      participantJoined { p with isLocal := some true } ∧
    localParticipantJoined { p with isLocal := some false } =
      Action.PARTICIPANT_JOINED { p with isLocal := some true } :=
  ⟨rfl, rfl⟩

/-- C9: the TRACK_ADDED and TRACK_REMOVED listeners registered by
`_setupConferenceListeners` dispatch `trackAdded` / `trackRemoved`
exactly when the received track is non-null and not local (null or local
tracks are silently dropped), whereas the TRACK_MUTE_CHANGED listener
dispatches `trackMuteChanged` for every received track, unguarded. -/
theorem track_listener_guards :
    (∀ t : JitsiTrack, trackAddedListener (some t) =
      if t.isLocal then [] else [trackAdded t]) ∧
    trackAddedListener none = [] ∧
    (∀ t : JitsiTrack, trackRemovedListener (some t) =
      if t.isLocal then [] else [trackRemoved t]) ∧
    trackRemovedListener none = [] ∧
    (∀ t : Option JitsiTrack,
      trackMuteChangedListener t = [trackMuteChanged t]) :=
  ⟨fun _ => rfl, rfl, fun _ => rfl, rfl, fun _ => rfl⟩

/-- C10: on a store state whose roster contains no participant flagged
local, the thunks returned by `localParticipantLeft()` and by
`localParticipantIdChanged(id)` dispatch no action at all, leaving the
store state unchanged. -/
theorem no_local_no_dispatch (state : ReduxState)
    (h : ∀ p ∈ state.participants, optTruthy p.isLocal = false) :
    localParticipantLeft state = [] ∧
    ∀ id, localParticipantIdChanged id state = [] := by
  have hfind : _getLocalParticipant state = none := by
    apply List.find?_eq_none.mpr
    intro p hp
    simp [h p hp]
  exact ⟨by unfold localParticipantLeft; rw [hfind],
         fun id => by unfold localParticipantIdChanged; rw [hfind]⟩

/-- A remote (non-local) participant with id "r". -/
def pRemote : Participant := { id := some "r" }

/-- A store state whose roster holds exactly the remote participant. -/
def stateRemote : ReduxState := { participants := [pRemote] }

/-- Witness for C10 at a concrete roster holding one non-local
participant. -/
theorem no_local_no_dispatch_witness :
    (∀ p ∈ stateRemote.participants, optTruthy p.isLocal = false) ∧
    localParticipantLeft stateRemote = [] ∧
    localParticipantIdChanged "n" stateRemote = [] :=
  ⟨by decide,
   (no_local_no_dispatch stateRemote (by decide)).1,
   (no_local_no_dispatch stateRemote (by decide)).2 "n"⟩

end Jitsi
